import Mathlib

/-
Verification of the voice-activity-gated audio capture pipeline of the
Elevan-Labs-Voice-Cloning repository.

The embedding covers:
  * the RMS level computation and speech/silence classifier
    (src/dual_audio_interface.py DualAudioInterface._get_audio_level /
     _is_speech, and src/smart_audio_recorder.py
     SmartAudioRecorder._get_audio_level / _is_speech);
  * the per-chunk capture state machine of
    DualAudioInterface._in_callback (push mode);
  * the loop body of SmartAudioRecorder.record (pull mode);
  * start_recording / stop_recording / _save_recording of
    DualAudioInterface, with the file system modelled explicitly.

Audio chunks are byte strings, modelled as List Nat (each entry one byte,
0..255).  Python floats are modelled as rationals; the arithmetic that the
claims depend on is exact in both representations.  The RMS level is the
square root of the mean of the squared samples; to stay computable we
carry the squared level (mean of squares) as a rational and compare it
against the squared threshold, and we prove the equivalence with the
real-valued square-root comparison where a claim is about the RMS itself.
-/

namespace VoiceClone

/-- Errors of the level computation: struct.unpack fails when the byte
count is not even (`structError`); the mean over zero samples raises a
ZeroDivisionError (`zeroDiv`). -/
inductive LevelError where
  | structError : LevelError
  | zeroDiv : LevelError
deriving DecidableEq, Repr

/-- Decode a byte string into signed 16-bit samples, little-endian,
two bytes per sample, as struct.unpack with format "%dh" does. -/
def toSamples : List ℕ → List ℤ
  | lo :: hi :: rest =>
      (let u := lo + 256 * hi
       if u < 32768 then (u : ℤ) else (u : ℤ) - 65536) :: toSamples rest
  | _ => []

/-- Sum of the squares of the samples (`sum([sample**2 for sample in shorts])`). -/
def sumSquares (l : List ℤ) : ℤ := (l.map (fun s => s * s)).sum

/-- SmartAudioRecorder._get_audio_level, carried in squared form: the
source computes `count = len(data) // 2`, unpacks `count` 16-bit samples
(struct.error if the byte count is odd), and returns
`rms = (sum_squares / count) ** 0.5`; an empty chunk divides by zero.
This definition returns the radicand `sum_squares / count` (the squared
RMS) as a rational, with both failure modes made explicit. -/
def getAudioLevelSq (data : List ℕ) : Except LevelError ℚ :=
  if data.length % 2 ≠ 0 then .error .structError
  else
    let shorts := toSamples data
    if shorts.length = 0 then .error .zeroDiv
    else .ok ((sumSquares shorts : ℚ) / (shorts.length : ℚ))

/-- DualAudioInterface._get_audio_level: the same computation wrapped in
`try: ... except: return 0` — every error is swallowed and the level 0 is
returned. Carried in squared form (0 squared is 0). -/
def dualGetAudioLevelSq (data : List ℕ) : ℚ :=
  match getAudioLevelSq data with
  | .ok m => m
  | .error _ => 0

/-- RMS threshold below which a chunk counts as silence
(`self.silence_threshold = 500` in both classes). -/
def silenceThreshold : ℚ := 500

/-- DualAudioInterface._is_speech: `rms > self.silence_threshold`.
Since the RMS and the threshold are both nonnegative, the strict
comparison `sqrt m > 500` is equivalent to `m > 500 ^ 2`, which is what
this computable form tests (equivalence with the square-root form is
proved below). -/
def dualIsSpeech (data : List ℕ) : Bool :=
  decide (silenceThreshold ^ 2 < dualGetAudioLevelSq data)

/-- SmartAudioRecorder._is_speech: identical comparison, but the level
computation is not protected by an except handler, so its errors
propagate. -/
def smartIsSpeech (data : List ℕ) : Except LevelError Bool :=
  (getAudioLevelSq data).map (fun m => decide (silenceThreshold ^ 2 < m))

/-! ## The DualAudioInterface capture state machine -/

/-- Mutable capture state of a DualAudioInterface object: exactly the
fields of __init__ that the recording path reads or writes (the pyaudio
stream objects, lock, and GUI handle are omitted; `_display_progress`
only renders and mutates nothing the claims mention). -/
structure DualState where
  record_to_file : Option String
  output_dir : String
  recording_frames : List (List ℕ)
  speech_frames : List (List ℕ)
  is_recording : Bool
  target_duration : ℚ
  speech_seconds : ℚ
  currently_speaking : Bool
  recording_complete : Bool
  silence_buffer : List (List ℕ)
  silence_buffer_max : ℕ
deriving DecidableEq, Repr

/-- Debounce bound of DualAudioInterface.__init__:
`int(16000 / 4000 * self.silence_debounce)` with `silence_debounce = 1.5`.
Python's int() truncates; all quantities are nonnegative so truncation is
the floor.  The float arithmetic is exact here (16000/4000 = 4.0). -/
def dualSilenceDebounce : ℚ := 3 / 2

def dualSilenceBufferMax : ℤ := ⌊(16000 : ℚ) / 4000 * dualSilenceDebounce⌋

/-- Initial state built by DualAudioInterface.__init__. -/
def initDual (record_to_file : Option String) (output_dir : String)
    (target_duration : ℚ) : DualState :=
  { record_to_file := record_to_file
    output_dir := output_dir
    recording_frames := []
    speech_frames := []
    is_recording := false
    target_duration := target_duration
    speech_seconds := 0
    currently_speaking := false
    recording_complete := false
    silence_buffer := []
    silence_buffer_max := dualSilenceBufferMax.toNat }

/-- Speech branch of _in_callback (`if is_speech:`): flush the pending
silence buffer into speech_frames when there is one and we were speaking,
reset it, append the chunk, recompute speech_seconds from the new frame
count and the current chunk's byte length
(`len(self.speech_frames) * len(in_data) / (16000 * 2)`), mark speaking,
and set recording_complete when the target is reached. -/
def dualStepSpeech (s : DualState) (data : List ℕ) : DualState :=
  let flushed :=
    if s.silence_buffer ≠ [] ∧ s.currently_speaking = true
    then s.speech_frames ++ s.silence_buffer
    else s.speech_frames
  let speech := flushed ++ [data]
  let secs : ℚ := (speech.length : ℚ) * (data.length : ℚ) / (16000 * 2)
  { s with
    speech_frames := speech
    silence_buffer := []
    speech_seconds := secs
    currently_speaking := true
    recording_complete :=
      if s.target_duration ≤ secs then true else s.recording_complete }

/-- Silence branch of _in_callback (`else:`): while speaking, the chunk
joins the silence buffer; when the buffer reaches silence_buffer_max the
gate closes and the buffer is discarded; while not speaking nothing
changes. -/
def dualStepSilence (s : DualState) (data : List ℕ) : DualState :=
  if s.currently_speaking = true then
    let sb := s.silence_buffer ++ [data]
    if s.silence_buffer_max ≤ sb.length then
      { s with currently_speaking := false, silence_buffer := [] }
    else
      { s with silence_buffer := sb }
  else s

/-- One invocation of DualAudioInterface._in_callback on a chunk, capture
path only (the trailing delegation to the parent class only feeds the
conversation and touches none of this state).  The whole block is guarded
by `if self.is_recording and isinstance(in_data, bytes) and not
self.recording_complete`; in the model every chunk is a byte string, so
the isinstance test is always true.  Inside the guard the chunk is always
appended to recording_frames first. -/
def dualStep (s : DualState) (data : List ℕ) : DualState :=
  if s.is_recording = true ∧ s.recording_complete = false then
    let s1 := { s with recording_frames := s.recording_frames ++ [data] }
    if dualIsSpeech data = true then dualStepSpeech s1 data
    else dualStepSilence s1 data
  else s

/-- Processing of a whole chunk sequence, in arrival order. -/
def dualRun (s : DualState) (t : List (List ℕ)) : DualState :=
  t.foldl dualStep s

/-- DualAudioInterface.start_recording: sets record_to_file, clears
recording_frames, raises is_recording — and touches nothing else. -/
def startRecording (s : DualState) (f : String) : DualState :=
  { s with record_to_file := some f, recording_frames := [], is_recording := true }

/-! ## Stop / save, with an explicit file-system model -/

/-- The file system as seen by _save_recording: the content last written
to the output file (the concatenated frames) and how many times the file
has been written. -/
structure FileSystem where
  content : Option (List (List ℕ))
  writeCount : ℕ
deriving DecidableEq, Repr

/-- DualAudioInterface._save_recording: writes the joined
recording_frames into output_dir/record_to_file as a 16 kHz mono wave
file and returns the path.  The wave container is modelled as the frame
list itself; the OS-level failure path of the try/except (which prints
and returns None) has no counterpart in the pure model. -/
def saveRecording (s : DualState) (fs : FileSystem) :
    FileSystem × Option String :=
  ({ content := some s.recording_frames, writeCount := fs.writeCount + 1 },
   some (s.output_dir ++ "/" ++ s.record_to_file.getD ""))

/-- DualAudioInterface.stop_recording: lowers is_recording, then saves
iff recording_frames is nonempty and record_to_file is set (Python
truthiness: a None or empty filename, like an empty frame list, skips
the save and returns None). -/
def stopRecording (s : DualState) (fs : FileSystem) :
    DualState × FileSystem × Option String :=
  let s1 := { s with is_recording := false }
  if s1.recording_frames ≠ [] ∧ s1.record_to_file.getD "" ≠ "" then
    let (fs1, r) := saveRecording s1 fs
    (s1, fs1, r)
  else
    (s1, fs, none)

/-! ## The SmartAudioRecorder loop body -/

/-- Mutable state of the SmartAudioRecorder.record loop: the saved
frames, the speech/total frame counters, the pending speech buffer (the
`min_speech_chunk` batching), the pending silence buffer, and the gate
flag, together with the two precomputed bounds
`speech_buffer_duration = int(sample_rate / chunk * min_speech_chunk)`
and `silence_buffer_max = int(sample_rate / chunk * silence_debounce)`. -/
structure SmartState where
  frames : List (List ℕ)
  speech_frames : ℕ
  total_frames : ℕ
  speech_buffer : List (List ℕ)
  silence_buffer : List (List ℕ)
  currently_recording : Bool
  speech_buffer_duration : ℕ
  silence_buffer_max : ℕ
deriving DecidableEq, Repr

/-- One iteration of the SmartAudioRecorder.record while-loop after
`data = stream.read(...)`, with the speech/silence classification passed
in (the loop-header termination tests live in the driver, not here).
Note the source order in the speech branch: the new chunk is appended to
speech_buffer FIRST, and only then is the pending silence buffer
extended onto it. -/
def smartStepCore (s : SmartState) (isSp : Bool) (data : List ℕ) : SmartState :=
  let s := { s with total_frames := s.total_frames + 1 }
  if isSp then
    let sb1 := s.speech_buffer ++ [data]
    let sb2 :=
      if s.silence_buffer ≠ [] ∧ s.currently_recording = true
      then sb1 ++ s.silence_buffer
      else sb1
    if s.speech_buffer_duration ≤ sb2.length then
      { s with
        speech_buffer := []
        silence_buffer := []
        frames := s.frames ++ sb2
        speech_frames := s.speech_frames + sb2.length
        currently_recording := true }
    else
      { s with speech_buffer := sb2, silence_buffer := [] }
  else
    if s.currently_recording = true then
      let silb := s.silence_buffer ++ [data]
      if s.silence_buffer_max ≤ silb.length then
        { s with currently_recording := false, silence_buffer := [], speech_buffer := [] }
      else
        { s with silence_buffer := silb }
    else
      { s with silence_buffer := [], speech_buffer := [] }

/-- The loop body including the classification `is_speech =
self._is_speech(data)`, whose errors (malformed chunk) propagate out of
record uncaught. -/
def smartStep (s : SmartState) (data : List ℕ) : Except LevelError SmartState :=
  (smartIsSpeech data).map (fun isSp => smartStepCore s isSp data)

/-- Debounce bound of SmartAudioRecorder.record:
`int(self.sample_rate / self.chunk * self.silence_debounce)` — Python
int() truncation, i.e. the floor for these nonnegative values. -/
def smartSilenceBufferMax (sample_rate chunk : ℕ) (silence_debounce : ℚ) : ℤ :=
  ⌊(sample_rate : ℚ) / (chunk : ℚ) * silence_debounce⌋

/-- Default silence tolerance of SmartAudioRecorder.__init__
(`self.silence_debounce = 1.5`). -/
def smartDefaultSilenceDebounce : ℚ := 3 / 2

/-- Modelled from the spec: the spec states
`debounce_bound = ceil(silence_tolerance_seconds / chunk_duration_seconds)`
with chunk_duration_seconds = chunk / sample_rate.  Defined here only to
be compared with the source's smartSilenceBufferMax. -/
def specDebounceBound (sample_rate chunk : ℕ) (silence_tolerance : ℚ) : ℤ :=
  ⌈silence_tolerance / ((chunk : ℚ) / (sample_rate : ℚ))⌉

/-! ## Invariants and helper lemmas for the dual machine -/

/-- Invariant of the capture state maintained by _in_callback: the
debounce bound is positive, the pending silence run is strictly shorter
than the bound, the run is empty while the gate is closed, and every
chunk in the run was classified as silence. -/
def GateInv (s : DualState) : Prop :=
  1 ≤ s.silence_buffer_max ∧
  s.silence_buffer.length + 1 ≤ s.silence_buffer_max ∧
  (s.currently_speaking = false → s.silence_buffer = []) ∧
  (∀ d ∈ s.silence_buffer, dualIsSpeech d = false)

instance (s : DualState) : Decidable (GateInv s) := by
  unfold GateInv; infer_instance

lemma dualSilenceBufferMax_eq : dualSilenceBufferMax = 6 := by
  unfold dualSilenceBufferMax dualSilenceDebounce
  have h : (16000 : ℚ) / 4000 * (3 / 2) = ((6 : ℤ) : ℚ) := by norm_num
  rw [h, Int.floor_intCast]

lemma gateInv_initDual (f : Option String) (od : String) (tg : ℚ) :
    GateInv (initDual f od tg) := by
  refine ⟨?_, ?_, ?_, ?_⟩ <;>
    simp [initDual, dualSilenceBufferMax_eq]

lemma dualStep_inactive {s : DualState} (data : List ℕ)
    (h : ¬ (s.is_recording = true ∧ s.recording_complete = false)) :
    dualStep s data = s := by
  simp [dualStep, h]

lemma dualStep_complete {s : DualState} (data : List ℕ)
    (h : s.recording_complete = true) : dualStep s data = s := by
  apply dualStep_inactive
  simp [h]

lemma dualRun_complete {s : DualState} (t : List (List ℕ))
    (h : s.recording_complete = true) : dualRun s t = s := by
  induction t with
  | nil => rfl
  | cons d t ih => simpa [dualRun, dualStep_complete d h] using ih

lemma gateInv_dualStep {s : DualState} (data : List ℕ) (hInv : GateInv s) :
    GateInv (dualStep s data) := by
  obtain ⟨h1, h2, h3, h4⟩ := hInv
  unfold dualStep
  by_cases hact : s.is_recording = true ∧ s.recording_complete = false
  · simp only [hact, and_self, if_true]
    by_cases hsp : dualIsSpeech data = true
    · simp only [hsp, if_true]
      exact ⟨h1, by simp [dualStepSpeech, h1], by simp [dualStepSpeech], by simp [dualStepSpeech]⟩
    · simp only [hsp, Bool.false_eq_true, if_false]
      unfold dualStepSilence
      by_cases hcs : s.currently_speaking = true
      · simp only [hcs, if_true]
        split
        next hlen =>
          exact ⟨h1, by simp [h1], by simp, by simp⟩
        next hlen =>
          simp only [List.length_append, List.length_singleton] at hlen
          refine ⟨h1, ?_, by simp [hcs], ?_⟩
          · simp only [List.length_append, List.length_singleton]
            omega
          · intro d hd
            simp only [List.mem_append, List.mem_singleton] at hd
            rcases hd with hd | hd
            · exact h4 d hd
            · subst hd
              simpa using hsp
      · simp only [hcs, Bool.false_eq_true, if_false]
        exact ⟨h1, h2, fun _ => h3 (by simpa using hcs), h4⟩
  · simp only [hact, if_false]
    exact ⟨h1, h2, h3, h4⟩

lemma gateInv_dualRun {s : DualState} (t : List (List ℕ)) (hInv : GateInv s) :
    GateInv (dualRun s t) := by
  induction t generalizing s with
  | nil => exact hInv
  | cons d t ih => exact ih (gateInv_dualStep d hInv)

lemma dualStep_speech_frames_mono (s : DualState) (data : List ℕ) :
    s.speech_frames.length ≤ (dualStep s data).speech_frames.length := by
  unfold dualStep
  by_cases hact : s.is_recording = true ∧ s.recording_complete = false
  · simp only [hact, and_self, if_true]
    by_cases hsp : dualIsSpeech data = true
    · simp only [hsp, if_true, dualStepSpeech]
      by_cases hfl : s.silence_buffer ≠ [] ∧ s.currently_speaking = true
      · simp [hfl]
      · simp [hfl]
    · simp only [hsp, Bool.false_eq_true, if_false, dualStepSilence]
      by_cases hcs : s.currently_speaking = true
      · simp only [hcs, if_true]
        split <;> simp
      · simp [hcs]
  · simp [hact]

lemma dualRun_speech_frames_mono (s : DualState) (t : List (List ℕ)) :
    s.speech_frames.length ≤ (dualRun s t).speech_frames.length := by
  induction t generalizing s with
  | nil => exact le_refl _
  | cons d t ih =>
      exact le_trans (dualStep_speech_frames_mono s d) (ih (dualStep s d))

/-! ## Step-shape lemmas -/

lemma dualStep_eq_speech (s : DualState) (data : List ℕ)
    (hact : s.is_recording = true) (hnc : s.recording_complete = false)
    (hsp : dualIsSpeech data = true) :
    dualStep s data =
      dualStepSpeech { s with recording_frames := s.recording_frames ++ [data] } data := by
  unfold dualStep
  rw [if_pos ⟨hact, hnc⟩, if_pos hsp]

lemma dualStep_eq_silence (s : DualState) (data : List ℕ)
    (hact : s.is_recording = true) (hnc : s.recording_complete = false)
    (hsp : dualIsSpeech data = false) :
    dualStep s data =
      dualStepSilence { s with recording_frames := s.recording_frames ++ [data] } data := by
  unfold dualStep
  rw [if_pos ⟨hact, hnc⟩, if_neg (by simp [hsp])]

@[simp] lemma dualStepSpeech_silence_buffer (s : DualState) (d : List ℕ) :
    (dualStepSpeech s d).silence_buffer = [] := rfl

@[simp] lemma dualStepSpeech_currently_speaking (s : DualState) (d : List ℕ) :
    (dualStepSpeech s d).currently_speaking = true := rfl

@[simp] lemma dualStepSpeech_speech_frames (s : DualState) (d : List ℕ) :
    (dualStepSpeech s d).speech_frames =
      (if s.silence_buffer ≠ [] ∧ s.currently_speaking = true
       then s.speech_frames ++ s.silence_buffer
       else s.speech_frames) ++ [d] := rfl

@[simp] lemma dualStepSpeech_speech_seconds (s : DualState) (d : List ℕ) :
    (dualStepSpeech s d).speech_seconds =
      (((if s.silence_buffer ≠ [] ∧ s.currently_speaking = true
         then s.speech_frames ++ s.silence_buffer
         else s.speech_frames) ++ [d]).length : ℚ) * (d.length : ℚ) / (16000 * 2) := rfl

@[simp] lemma dualStepSpeech_recording_complete (s : DualState) (d : List ℕ) :
    (dualStepSpeech s d).recording_complete =
      (if s.target_duration ≤
          (((if s.silence_buffer ≠ [] ∧ s.currently_speaking = true
             then s.speech_frames ++ s.silence_buffer
             else s.speech_frames) ++ [d]).length : ℚ) * (d.length : ℚ) / (16000 * 2)
       then true else s.recording_complete) := rfl

@[simp] lemma dualStepSpeech_recording_frames (s : DualState) (d : List ℕ) :
    (dualStepSpeech s d).recording_frames = s.recording_frames := rfl

@[simp] lemma dualStepSpeech_is_recording (s : DualState) (d : List ℕ) :
    (dualStepSpeech s d).is_recording = s.is_recording := rfl

@[simp] lemma dualStepSpeech_target_duration (s : DualState) (d : List ℕ) :
    (dualStepSpeech s d).target_duration = s.target_duration := rfl

lemma dualStepSilence_close (s : DualState) (d : List ℕ)
    (hcs : s.currently_speaking = true)
    (hlen : s.silence_buffer_max ≤ s.silence_buffer.length + 1) :
    dualStepSilence s d = { s with currently_speaking := false, silence_buffer := [] } := by
  simp only [dualStepSilence]
  rw [if_pos hcs, if_pos (by simpa using hlen)]

lemma dualStepSilence_grow (s : DualState) (d : List ℕ)
    (hcs : s.currently_speaking = true)
    (hlen : s.silence_buffer.length + 1 < s.silence_buffer_max) :
    dualStepSilence s d = { s with silence_buffer := s.silence_buffer ++ [d] } := by
  simp only [dualStepSilence]
  rw [if_pos hcs, if_neg (by simp; omega)]

lemma dualStepSilence_idle (s : DualState) (d : List ℕ)
    (hcs : s.currently_speaking = false) :
    dualStepSilence s d = s := by
  simp only [dualStepSilence]
  rw [if_neg (by simp [hcs])]

lemma dualStep_eq_close (s : DualState) (data : List ℕ)
    (hact : s.is_recording = true) (hnc : s.recording_complete = false)
    (hsp : dualIsSpeech data = false)
    (hcs : s.currently_speaking = true)
    (hlen : s.silence_buffer_max ≤ s.silence_buffer.length + 1) :
    dualStep s data =
      { s with recording_frames := s.recording_frames ++ [data],
               currently_speaking := false, silence_buffer := [] } := by
  rw [dualStep_eq_silence s data hact hnc hsp]
  exact dualStepSilence_close _ data hcs hlen

lemma dualStep_eq_grow (s : DualState) (data : List ℕ)
    (hact : s.is_recording = true) (hnc : s.recording_complete = false)
    (hsp : dualIsSpeech data = false)
    (hcs : s.currently_speaking = true)
    (hlen : s.silence_buffer.length + 1 < s.silence_buffer_max) :
    dualStep s data =
      { s with recording_frames := s.recording_frames ++ [data],
               silence_buffer := s.silence_buffer ++ [data] } := by
  rw [dualStep_eq_silence s data hact hnc hsp]
  exact dualStepSilence_grow _ data hcs hlen

lemma dualStep_eq_idle (s : DualState) (data : List ℕ)
    (hact : s.is_recording = true) (hnc : s.recording_complete = false)
    (hsp : dualIsSpeech data = false)
    (hcs : s.currently_speaking = false) :
    dualStep s data =
      { s with recording_frames := s.recording_frames ++ [data] } := by
  rw [dualStep_eq_silence s data hact hnc hsp]
  exact dualStepSilence_idle _ data hcs

/-! ## Evaluation lemmas for the concrete chunks used as witnesses -/

/-- A two-byte chunk holding the single sample 0: classified silence. -/
lemma dualIsSpeech_chunk0 : dualIsSpeech [0, 0] = false := by
  norm_num [dualIsSpeech, dualGetAudioLevelSq, getAudioLevelSq, toSamples, sumSquares,
    silenceThreshold]

/-- A two-byte chunk holding the single sample 1000 (0x03E8 little-endian):
RMS 1000 > 500, classified speech. -/
lemma dualIsSpeech_chunk1000 : dualIsSpeech [232, 3] = true := by
  norm_num [dualIsSpeech, dualGetAudioLevelSq, getAudioLevelSq, toSamples, sumSquares,
    silenceThreshold]

/-- A two-byte chunk holding the single sample 500 (0x01F4 little-endian):
its squared level is exactly the squared threshold. -/
lemma getAudioLevelSq_chunk500 : getAudioLevelSq [244, 1] = .ok 250000 := by
  norm_num [getAudioLevelSq, toSamples, sumSquares]

/-! ## Claim C1 -/

/-- C1: for every sequence of loudness samples fed to the speech gate,
the gate leaves Speaking for Waiting only on a silence-classified chunk
that extends the pending silence run to exactly silence_buffer_max
consecutive silence-classified chunks; the run's length never exceeds
that bound (between chunks it is strictly below it); reaching the bound
is the only event that closes the gate, and the run is then discarded
without being counted as speech.  GateInv holds initially and is
preserved by every step, so the invariant hypothesis describes exactly
the reachable states; the last two conjuncts pin down that the pending
run consists of the consecutive silence-classified chunks seen since
speech last resumed. -/
theorem c1_speaking_to_waiting_only_after_debounce
    (s : DualState) (data : List ℕ)
    (hInv : GateInv s)
    (hact : s.is_recording = true) (hnc : s.recording_complete = false) :
    (∀ f od tg, GateInv (initDual f od tg)) ∧
    (∀ s2 : DualState, ∀ d2 : List ℕ, GateInv s2 → GateInv (dualStep s2 d2)) ∧
    (dualStep s data).silence_buffer.length < s.silence_buffer_max ∧
    ((s.currently_speaking = true ∧ (dualStep s data).currently_speaking = false) ↔
      (dualIsSpeech data = false ∧ s.currently_speaking = true ∧
       s.silence_buffer.length + 1 = s.silence_buffer_max)) ∧
    ((s.currently_speaking = true ∧ (dualStep s data).currently_speaking = false) →
      (dualStep s data).silence_buffer = [] ∧
      (dualStep s data).speech_frames = s.speech_frames) ∧
    (s.currently_speaking = true → dualIsSpeech data = false →
      s.silence_buffer.length + 1 < s.silence_buffer_max →
      (dualStep s data).silence_buffer = s.silence_buffer ++ [data]) ∧
    (dualIsSpeech data = true → (dualStep s data).silence_buffer = []) := by
  obtain ⟨h1, h2, h3, h4⟩ := hInv
  refine ⟨gateInv_initDual, fun s2 d2 h => gateInv_dualStep d2 h, ?_⟩
  by_cases hsp : dualIsSpeech data = true
  · rw [dualStep_eq_speech s data hact hnc hsp]
    refine ⟨by simp; omega, ?_, ?_, ?_, ?_⟩
    · simp [hsp]
    · simp
    · simp [hsp]
    · intro _
      simp
  · have hsp' : dualIsSpeech data = false := by simpa using hsp
    by_cases hcs : s.currently_speaking = true
    · by_cases hlen : s.silence_buffer_max ≤ s.silence_buffer.length + 1
      · rw [dualStep_eq_close s data hact hnc hsp' hcs hlen]
        refine ⟨by simp; omega, ?_, ?_, ?_, ?_⟩
        · simp [hcs, hsp']
          omega
        · intro _
          simp
        · intro _ _ hlt
          omega
        · simp [hsp']
      · have hlt : s.silence_buffer.length + 1 < s.silence_buffer_max := by omega
        rw [dualStep_eq_grow s data hact hnc hsp' hcs hlt]
        refine ⟨by simp; omega, ?_, ?_, ?_, ?_⟩
        · simp [hcs]
          omega
        · simp [hcs]
        · intro _ _ _
          simp
        · simp [hsp']
    · have hcs' : s.currently_speaking = false := by simpa using hcs
      rw [dualStep_eq_idle s data hact hnc hsp' hcs']
      refine ⟨?_, ?_, ?_, ?_, ?_⟩
      · simp only [h3 hcs']
        simpa using h1
      · simp [hcs']
      · simp [hcs']
      · simp [hcs']
      · simp [hsp']

/-- Evaluation of smartIsSpeech on the loud one-sample chunk. -/
lemma smartIsSpeech_chunk1000 : smartIsSpeech [232, 3] = .ok true := by
  norm_num [smartIsSpeech, getAudioLevelSq, toSamples, sumSquares, silenceThreshold,
    Except.map]

/-- A reachable capture state of the dual interface: gate open, five
pending silent chunks, bound 6, recording active. -/
def c1WitnessState : DualState :=
  { record_to_file := some "a.wav", output_dir := "Audio-Recordings",
    recording_frames := [], speech_frames := [[232, 3]],
    is_recording := true, target_duration := 20, speech_seconds := 1 / 8,
    currently_speaking := true, recording_complete := false,
    silence_buffer := [[0, 0], [0, 0], [0, 0], [0, 0], [0, 0]],
    silence_buffer_max := 6 }

lemma c1WitnessState_inv : GateInv c1WitnessState := by
  refine ⟨by decide, by decide, by decide, ?_⟩
  intro d hd
  simp only [c1WitnessState, List.mem_cons, List.not_mem_nil, or_false, or_self] at hd
  subst hd
  exact dualIsSpeech_chunk0

/-- Witness for C1: on the concrete reachable state above, a sixth
consecutive silence-classified chunk closes the gate, per the
characterization proved in the claim theorem. -/
theorem c1_witness :
    (c1WitnessState.currently_speaking = true ∧
      (dualStep c1WitnessState [0, 0]).currently_speaking = false) ↔
    (dualIsSpeech [0, 0] = false ∧ c1WitnessState.currently_speaking = true ∧
      c1WitnessState.silence_buffer.length + 1 = c1WitnessState.silence_buffer_max) :=
  (c1_speaking_to_waiting_only_after_debounce c1WitnessState [0, 0]
    c1WitnessState_inv rfl rfl).2.2.2.1

/-! ## Claim C2 -/

/-- The smart recorder mid-utterance: gate open, one pending silent
chunk, pending speech buffer empty, default bounds for 44100 Hz / 1024
samples (speech_buffer_duration 12, silence_buffer_max 64). -/
def c2State : SmartState :=
  { frames := [], speech_frames := 0, total_frames := 0,
    speech_buffer := [], silence_buffer := [[0, 0]],
    currently_recording := true,
    speech_buffer_duration := 12, silence_buffer_max := 64 }

/-- C2, evaluated at the failing input: when speech resumes while a
silent chunk is pending, SmartAudioRecorder.record appends the resuming
speech chunk to the pending speech buffer FIRST and only then extends it
with the buffered silence, so the buffer holds the chunks out of arrival
order — the silent chunk arrived first but ends up second.  (The claim's
order, with the silent run preceding the resuming chunk, is what
DualAudioInterface._in_callback implements; see the C3 amended theorem's
machinery for that code path.) -/
theorem c2_smart_flushes_silence_after_new_chunk :
    smartStep c2State [232, 3] =
      .ok { frames := [], speech_frames := 0, total_frames := 1,
            speech_buffer := [[232, 3], [0, 0]], silence_buffer := [],
            currently_recording := true,
            speech_buffer_duration := 12, silence_buffer_max := 64 } ∧
    [[232, 3], [0, 0]] ≠ [[0, 0], [232, 3]] := by
  constructor
  · unfold smartStep
    rw [smartIsSpeech_chunk1000]
    simp only [Except.map]
    exact congrArg Except.ok (by decide)
  · decide

/-! ## Claim C3 -/

/-- The smart recorder waiting for speech (initial loop state with the
default 44100 Hz / 1024-sample bounds). -/
def c3State : SmartState :=
  { frames := [], speech_frames := 0, total_frames := 0,
    speech_buffer := [], silence_buffer := [],
    currently_recording := false,
    speech_buffer_duration := 12, silence_buffer_max := 64 }

/-- Counterexample to C3 as stated: in SmartAudioRecorder.record, a
speech-classified chunk arriving while the gate is Waiting does NOT
switch the gate to Speaking, and the chunk is not counted into the saved
speech frames — it only enters the pending speech buffer, because the
transition additionally requires min_speech_chunk (0.3 s, i.e.
speech_buffer_duration = 12 chunks) of pending speech. -/
theorem c3_counterexample :
    smartStep c3State [232, 3] =
      .ok { frames := [], speech_frames := 0, total_frames := 1,
            speech_buffer := [[232, 3]], silence_buffer := [],
            currently_recording := false,
            speech_buffer_duration := 12, silence_buffer_max := 64 } ∧
    (smartStepCore c3State true [232, 3]).currently_recording = false ∧
    (smartStepCore c3State true [232, 3]).frames = [] := by
  refine ⟨?_, by decide, by decide⟩
  unfold smartStep
  rw [smartIsSpeech_chunk1000]
  simp only [Except.map]
  exact congrArg Except.ok (by decide)

/-- C3 amended: in the dual audio interface the gate transitions
Waiting→Speaking immediately on the first speech-classified chunk while
capture is active, and that chunk is appended to the speech buffer (with
nothing prepended, since no silence run is pending in Waiting).  In the
standalone smart recorder, by contrast, the transition waits for
min_speech_chunk of pending consecutive speech (see the counterexample). -/
theorem c3_waiting_speech_opens_gate_immediately
    (s : DualState) (data : List ℕ)
    (hact : s.is_recording = true) (hnc : s.recording_complete = false)
    (hw : s.currently_speaking = false) (hsp : dualIsSpeech data = true) :
    (dualStep s data).currently_speaking = true ∧
    (dualStep s data).speech_frames = s.speech_frames ++ [data] := by
  rw [dualStep_eq_speech s data hact hnc hsp]
  exact ⟨by simp, by simp [hw]⟩

/-- Witness for the C3 amended theorem: a fresh interface right after
start_recording receives one loud chunk and the gate opens on it. -/
theorem c3_witness :
    (dualStep (startRecording (initDual none "Audio-Recordings" 20) "a.wav")
        [232, 3]).currently_speaking = true ∧
    (dualStep (startRecording (initDual none "Audio-Recordings" 20) "a.wav")
        [232, 3]).speech_frames =
      (startRecording (initDual none "Audio-Recordings" 20) "a.wav").speech_frames
        ++ [[232, 3]] :=
  c3_waiting_speech_opens_gate_immediately _ [232, 3] rfl rfl rfl dualIsSpeech_chunk1000

/-! ## Claim C4 -/

lemma dualStep_silence_no_change (s : DualState) (data : List ℕ)
    (hsp : dualIsSpeech data = false) :
    (dualStep s data).speech_frames = s.speech_frames ∧
    (dualStep s data).speech_seconds = s.speech_seconds := by
  by_cases hact : s.is_recording = true ∧ s.recording_complete = false
  · by_cases hcs : s.currently_speaking = true
    · by_cases hlen : s.silence_buffer_max ≤ s.silence_buffer.length + 1
      · rw [dualStep_eq_close s data hact.1 hact.2 hsp hcs hlen]
        exact ⟨rfl, rfl⟩
      · rw [dualStep_eq_grow s data hact.1 hact.2 hsp hcs (by omega)]
        exact ⟨rfl, rfl⟩
    · rw [dualStep_eq_idle s data hact.1 hact.2 hsp (by simpa using hcs)]
      exact ⟨rfl, rfl⟩
  · rw [dualStep_inactive data hact]
    exact ⟨rfl, rfl⟩

/-- C4: the speech-seconds metric, i.e. the length of the speech buffer
(times the fixed chunk duration), never decreases: each step and hence
each whole input sequence can only grow speech_frames; and it grows only
on a step that processes a speech-classified chunk while capture is
active and that leaves the gate in Speaking — i.e. a Waiting→Speaking
transition or a continued-Speaking step on speech.  On silence-classified
chunks both the buffer and the speech_seconds field are unchanged. -/
theorem c4_speech_seconds_monotone :
    (∀ s : DualState, ∀ data : List ℕ,
      s.speech_frames.length ≤ (dualStep s data).speech_frames.length) ∧
    (∀ s : DualState, ∀ t : List (List ℕ),
      s.speech_frames.length ≤ (dualRun s t).speech_frames.length) ∧
    (∀ s : DualState, ∀ data : List ℕ,
      s.speech_frames.length < (dualStep s data).speech_frames.length →
        dualIsSpeech data = true ∧ (dualStep s data).currently_speaking = true ∧
        s.is_recording = true ∧ s.recording_complete = false) ∧
    (∀ s : DualState, ∀ data : List ℕ,
      dualIsSpeech data = false →
        (dualStep s data).speech_seconds = s.speech_seconds ∧
        (dualStep s data).speech_frames = s.speech_frames) := by
  refine ⟨dualStep_speech_frames_mono, dualRun_speech_frames_mono, ?_, ?_⟩
  · intro s data hlt
    by_cases hact : s.is_recording = true ∧ s.recording_complete = false
    · by_cases hsp : dualIsSpeech data = true
      · refine ⟨hsp, ?_, hact.1, hact.2⟩
        rw [dualStep_eq_speech s data hact.1 hact.2 hsp]
        simp
      · have hsp' : dualIsSpeech data = false := by simpa using hsp
        rw [(dualStep_silence_no_change s data hsp').1] at hlt
        exact absurd hlt (lt_irrefl _)
    · rw [dualStep_inactive data hact] at hlt
      exact absurd hlt (lt_irrefl _)
  · intro s data hsp
    exact ⟨(dualStep_silence_no_change s data hsp).2,
           (dualStep_silence_no_change s data hsp).1⟩

/-- Witness for C4: instantiation of the increase-only conjunct — a
silent chunk fed to the fresh interface leaves the metric unchanged. -/
theorem c4_witness :
    (dualStep (initDual none "Audio-Recordings" 20) [0, 0]).speech_seconds =
      (initDual none "Audio-Recordings" 20).speech_seconds ∧
    (dualStep (initDual none "Audio-Recordings" 20) [0, 0]).speech_frames =
      (initDual none "Audio-Recordings" 20).speech_frames :=
  c4_speech_seconds_monotone.2.2.2 (initDual none "Audio-Recordings" 20) [0, 0]
    dualIsSpeech_chunk0

/-! ## Claim C5 -/

lemma div_mul_eq_div_div_comm (a b c : ℚ) : a / b * c = c / (b / a) := by
  rw [div_div_eq_mul_div, div_mul_eq_mul_div, mul_comm]

/-- Counterexample to C5: with the smart recorder's own default
parameters (44100 Hz sample rate, 1024-sample chunks, 1.5 s tolerance)
the source computes int(44100/1024*1.5) = 64, while the spec's formula
ceil(1.5 / (1024/44100)) gives 65.  The float arithmetic of the source is
exact here (1024 is a power of two), so the rational model is faithful. -/
theorem c5_counterexample :
    smartSilenceBufferMax 44100 1024 smartDefaultSilenceDebounce = 64 ∧
    specDebounceBound 44100 1024 smartDefaultSilenceDebounce = 65 ∧
    smartSilenceBufferMax 44100 1024 smartDefaultSilenceDebounce ≠
      specDebounceBound 44100 1024 smartDefaultSilenceDebounce := by
  have e1 : smartSilenceBufferMax 44100 1024 smartDefaultSilenceDebounce = 64 := by
    norm_num [smartSilenceBufferMax, smartDefaultSilenceDebounce]
  have e2 : specDebounceBound 44100 1024 smartDefaultSilenceDebounce = 65 := by
    unfold specDebounceBound smartDefaultSilenceDebounce
    rw [show (3 / 2 : ℚ) / (((1024 : ℕ) : ℚ) / ((44100 : ℕ) : ℚ)) = 33075 / 512 by norm_num]
    rw [Int.ceil_eq_iff]
    norm_num
  exact ⟨e1, e2, by rw [e1, e2]; decide⟩

/-- C5 amended: the debounce bound the recorders use is the FLOOR of
silence_tolerance / chunk_duration (Python int() truncation of
sample_rate / chunk * tolerance), not the ceiling; the default tolerance
is 1.5 s, and for the dual interface's fixed parameters (16 kHz, 4000
frames) the floor is exactly 6 (where floor and ceiling coincide). -/
theorem c5_bound_is_floor :
    (∀ r c : ℕ, ∀ tol : ℚ,
      smartSilenceBufferMax r c tol = ⌊tol / ((c : ℚ) / (r : ℚ))⌋) ∧
    dualSilenceBufferMax = ⌊dualSilenceDebounce / ((4000 : ℚ) / 16000)⌋ ∧
    dualSilenceBufferMax = 6 ∧
    smartDefaultSilenceDebounce = 3 / 2 ∧ dualSilenceDebounce = 3 / 2 := by
  refine ⟨?_, ?_, dualSilenceBufferMax_eq, rfl, rfl⟩
  · intro r c tol
    unfold smartSilenceBufferMax
    rw [div_mul_eq_div_div_comm]
  · unfold dualSilenceBufferMax
    rw [div_mul_eq_div_div_comm]

/-! ## Claim C6 -/

/-- C6: recording_complete is a one-way latch.  Once it is set, every
later chunk leaves the entire capture state untouched (so no chunk is
appended to any buffer, speech or not), over single steps and whole
sequences; the flag becomes true exactly when a speech-classified chunk
processed while capture is active pushes the recomputed speech_seconds to
the target (or it was already true); and the flag always implies
speech_seconds ≥ target_duration (the code's is_target_reached reading),
preserved by every step. -/
theorem c6_target_reached_latch (s : DualState) (data : List ℕ) :
    (s.recording_complete = true → dualStep s data = s) ∧
    (∀ t : List (List ℕ), s.recording_complete = true → dualRun s t = s) ∧
    ((dualStep s data).recording_complete = true ↔
      (s.recording_complete = true ∨
        (s.is_recording = true ∧ dualIsSpeech data = true ∧
         s.target_duration ≤ (dualStep s data).speech_seconds))) ∧
    ((s.recording_complete = true → s.target_duration ≤ s.speech_seconds) →
      ((dualStep s data).recording_complete = true →
        (dualStep s data).target_duration ≤ (dualStep s data).speech_seconds)) := by
  refine ⟨fun hc => dualStep_complete data hc,
          fun t hc => dualRun_complete t hc, ?_, ?_⟩
  · by_cases hc : s.recording_complete = true
    · rw [dualStep_complete data hc]
      simp [hc]
    · have hc' : s.recording_complete = false := by simpa using hc
      by_cases hrec : s.is_recording = true
      · by_cases hsp : dualIsSpeech data = true
        · rw [dualStep_eq_speech s data hrec hc' hsp]
          simp [hc', hsp, hrec]
        · have hsp' : dualIsSpeech data = false := by simpa using hsp
          have hfix := dualStep_silence_no_change s data hsp'
          constructor
          · intro hcontr
            exfalso
            have : (dualStep s data).recording_complete = false := by
              by_cases hcs : s.currently_speaking = true
              · by_cases hlen : s.silence_buffer_max ≤ s.silence_buffer.length + 1
                · rw [dualStep_eq_close s data hrec hc' hsp' hcs hlen]
                  exact hc'
                · rw [dualStep_eq_grow s data hrec hc' hsp' hcs (by omega)]
                  exact hc'
              · rw [dualStep_eq_idle s data hrec hc' hsp' (by simpa using hcs)]
                exact hc'
            rw [this] at hcontr
            exact absurd hcontr (by simp)
          · intro h
            rcases h with h | h
            · exact absurd h (by simp [hc'])
            · exact absurd h.2.1 (by simp [hsp'])
      · have hstep : dualStep s data = s :=
          dualStep_inactive data (by simp [hrec])
        rw [hstep]
        simp [hc', hrec]
  · intro hpre hcomp
    by_cases hc : s.recording_complete = true
    · rw [dualStep_complete data hc]
      exact hpre hc
    · have hc' : s.recording_complete = false := by simpa using hc
      by_cases hrec : s.is_recording = true
      · by_cases hsp : dualIsSpeech data = true
        · rw [dualStep_eq_speech s data hrec hc' hsp] at hcomp ⊢
          simp only [dualStepSpeech_recording_complete, dualStepSpeech_target_duration,
            dualStepSpeech_speech_seconds] at hcomp ⊢
          by_cases htg : s.target_duration ≤
              (((if s.silence_buffer ≠ [] ∧ s.currently_speaking = true
                 then s.speech_frames ++ s.silence_buffer
                 else s.speech_frames) ++ [data]).length : ℚ) *
                (data.length : ℚ) / (16000 * 2)
          · simpa using htg
          · rw [if_neg htg] at hcomp
            exact absurd hcomp (by simp [hc'])
        · have hsp' : dualIsSpeech data = false := by simpa using hsp
          have : (dualStep s data).recording_complete = false := by
            by_cases hcs : s.currently_speaking = true
            · by_cases hlen : s.silence_buffer_max ≤ s.silence_buffer.length + 1
              · rw [dualStep_eq_close s data hrec hc' hsp' hcs hlen]
                exact hc'
              · rw [dualStep_eq_grow s data hrec hc' hsp' hcs (by omega)]
                exact hc'
            · rw [dualStep_eq_idle s data hrec hc' hsp' (by simpa using hcs)]
              exact hc'
          rw [this] at hcomp
          exact absurd hcomp (by simp)
      · have hstep : dualStep s data = s :=
          dualStep_inactive data (by simp [hrec])
        rw [hstep] at hcomp ⊢
        exact absurd hcomp (by simp [hc'])

/-- A completed capture session: the latch is set. -/
def c6State : DualState :=
  { record_to_file := some "a.wav", output_dir := "Audio-Recordings",
    recording_frames := [[232, 3], [232, 3]], speech_frames := [[232, 3], [232, 3]],
    is_recording := true, target_duration := 1 / 4, speech_seconds := 1 / 4,
    currently_speaking := true, recording_complete := true,
    silence_buffer := [], silence_buffer_max := 6 }

/-- Witness for C6: with the latch set, a further (speech) chunk leaves
the whole state — in particular every buffer — untouched. -/
theorem c6_witness : dualStep c6State [232, 3] = c6State :=
  (c6_target_reached_latch c6State [232, 3]).1 rfl

/-! ## Claim C7 -/

/-- A captured session about to be finalized: one frame recorded. -/
def c7State : DualState :=
  { record_to_file := some "a.wav", output_dir := "Audio-Recordings",
    recording_frames := [[0, 0]], speech_frames := [],
    is_recording := true, target_duration := 20, speech_seconds := 0,
    currently_speaking := false, recording_complete := false,
    silence_buffer := [], silence_buffer_max := 6 }

/-- Counterexample to C7 as stated: stop_recording keeps
recording_frames and record_to_file, so a second call in succession
re-enters _save_recording and writes the file again — the second call
does perform a write (write count goes from 1 to 2), contradicting the
claim's "does not double-write the file" conjunct (the content written
is the same both times; see the amended theorem). -/
theorem c7_counterexample :
    (stopRecording c7State { content := none, writeCount := 0 }).2.1.writeCount = 1 ∧
    (stopRecording (stopRecording c7State { content := none, writeCount := 0 }).1
        (stopRecording c7State { content := none, writeCount := 0 }).2.1).2.1.writeCount
      = 2 ∧
    ¬ ((stopRecording (stopRecording c7State { content := none, writeCount := 0 }).1
          (stopRecording c7State { content := none, writeCount := 0 }).2.1).2.1.writeCount
        = (stopRecording c7State { content := none, writeCount := 0 }).2.1.writeCount) := by
  refine ⟨?_, ?_, ?_⟩ <;>
    simp [stopRecording, saveRecording, c7State]

/-- C7 amended: calling stop_recording twice in succession yields the
same returned path and the same saved file content as calling it once,
and the second call cannot raise (the model of _save_recording is total;
the source wraps the write in try/except and returns None on failure) —
but whenever the first call saved, the second call re-executes the save,
rewriting the file with identical bytes rather than skipping the write. -/
theorem c7_stop_twice_same_file (s : DualState) (fs : FileSystem) :
    ((stopRecording (stopRecording s fs).1 (stopRecording s fs).2.1).2.2 =
      (stopRecording s fs).2.2) ∧
    ((stopRecording (stopRecording s fs).1 (stopRecording s fs).2.1).2.1.content =
      (stopRecording s fs).2.1.content) ∧
    ((stopRecording (stopRecording s fs).1 (stopRecording s fs).2.1).1 =
      (stopRecording s fs).1) ∧
    (∀ p : String, (stopRecording s fs).2.2 = some p →
      (stopRecording (stopRecording s fs).1 (stopRecording s fs).2.1).2.1.writeCount =
        (stopRecording s fs).2.1.writeCount + 1) := by
  by_cases hcond : s.recording_frames ≠ [] ∧ s.record_to_file.getD "" ≠ ""
  · refine ⟨?_, ?_, ?_, ?_⟩ <;>
      simp [stopRecording, saveRecording, hcond]
  · refine ⟨?_, ?_, ?_, ?_⟩ <;>
      simp [stopRecording, saveRecording, hcond]

/-- Witness for the C7 amended theorem: on the concrete session, the
first call saved, so the second call rewrites (write count increments). -/
theorem c7_witness :
    (stopRecording (stopRecording c7State { content := none, writeCount := 0 }).1
        (stopRecording c7State { content := none, writeCount := 0 }).2.1).2.1.writeCount =
      (stopRecording c7State { content := none, writeCount := 0 }).2.1.writeCount + 1 :=
  (c7_stop_twice_same_file c7State { content := none, writeCount := 0 }).2.2.2
    "Audio-Recordings/a.wav"
    (by simp [stopRecording, saveRecording, c7State])

/-! ## Claim C8 -/

lemma sumSquares_nonneg (l : List ℤ) : 0 ≤ sumSquares l := by
  unfold sumSquares
  apply List.sum_nonneg
  intro x hx
  simp only [List.mem_map] at hx
  obtain ⟨a, _, rfl⟩ := hx
  exact mul_self_nonneg a

lemma getAudioLevelSq_nonneg (data : List ℕ) (m : ℚ)
    (h : getAudioLevelSq data = .ok m) : 0 ≤ m := by
  unfold getAudioLevelSq at h
  by_cases h1 : data.length % 2 ≠ 0
  · rw [if_pos h1] at h
    exact absurd h (by simp)
  · rw [if_neg h1] at h
    dsimp only at h
    by_cases h2 : (toSamples data).length = 0
    · rw [if_pos h2] at h
      exact absurd h (by simp)
    · rw [if_neg h2] at h
      injection h with h
      subst h
      apply div_nonneg
      · exact_mod_cast sumSquares_nonneg (toSamples data)
      · positivity

/-- C8: the classifier is the strict comparison RMS > silence_threshold:
for every chunk whose level computation succeeds with squared level m,
is_speech holds iff the RMS (the real square root of m) strictly exceeds
500; in particular a chunk whose RMS is exactly the threshold is
classified as silence; and the smart recorder's classifier agrees with
the dual interface's on every such chunk. -/
theorem c8_strict_threshold (data : List ℕ) (m : ℚ)
    (h : getAudioLevelSq data = .ok m) :
    (dualIsSpeech data = true ↔ (500 : ℝ) < Real.sqrt ((m : ℚ) : ℝ)) ∧
    (Real.sqrt ((m : ℚ) : ℝ) = 500 → dualIsSpeech data = false) ∧
    smartIsSpeech data = .ok (dualIsSpeech data) := by
  have hlevel : dualGetAudioLevelSq data = m := by
    unfold dualGetAudioLevelSq
    rw [h]
  have key : dualIsSpeech data = true ↔ (500 : ℝ) < Real.sqrt ((m : ℚ) : ℝ) := by
    unfold dualIsSpeech silenceThreshold
    rw [hlevel, decide_eq_true_eq,
      Real.lt_sqrt (by norm_num : (0 : ℝ) ≤ 500)]
    constructor
    · intro hq
      exact_mod_cast hq
    · intro hr
      exact_mod_cast hr
  refine ⟨key, ?_, ?_⟩
  · intro heq
    rcases Bool.eq_false_or_eq_true (dualIsSpeech data) with hb | hb
    · exfalso
      have hlt := key.mp hb
      rw [heq] at hlt
      exact lt_irrefl _ hlt
    · exact hb
  · simp [smartIsSpeech, h, dualIsSpeech, hlevel, Except.map]

/-- Witness for C8: the one-sample chunk with value 500 has RMS exactly
the threshold and is classified as silence. -/
theorem c8_witness :
    getAudioLevelSq [244, 1] = .ok 250000 ∧ dualIsSpeech [244, 1] = false := by
  refine ⟨getAudioLevelSq_chunk500, ?_⟩
  apply (c8_strict_threshold [244, 1] 250000 getAudioLevelSq_chunk500).2.1
  rw [show ((250000 : ℚ) : ℝ) = (500 : ℝ) ^ 2 by norm_num,
    Real.sqrt_sq (by norm_num : (0 : ℝ) ≤ 500)]

/-! ## Claim C9 -/

/-- Counterexample to C9 as stated: on the malformed one-byte chunk the
dual interface's level computation does NOT fail — the bare except
handler silently maps it to the valid loudness value 0, which is then
classified as silence.  (The empty chunk is likewise mapped from a
ZeroDivisionError to 0.) -/
theorem c9_counterexample :
    getAudioLevelSq [0] = .error .structError ∧
    dualGetAudioLevelSq [0] = 0 ∧
    dualIsSpeech [0] = false ∧
    getAudioLevelSq [] = .error .zeroDiv ∧
    dualGetAudioLevelSq [] = 0 := by
  refine ⟨rfl, rfl, by decide, rfl, rfl⟩

/-- C9 amended: only the standalone smart recorder treats a malformed
chunk as fatal — its level computation (and hence its classifier)
propagates the struct.unpack error uncaught.  In the dual interface the
same computation is wrapped in a bare except that silently returns the
valid loudness value 0, so the malformed chunk is classified as silence
instead of failing. -/
theorem c9_malformed_chunk (data : List ℕ) (h : data.length % 2 = 1) :
    getAudioLevelSq data = .error .structError ∧
    smartIsSpeech data = .error .structError ∧
    dualGetAudioLevelSq data = 0 ∧
    dualIsSpeech data = false := by
  have h1 : getAudioLevelSq data = .error .structError := by
    unfold getAudioLevelSq
    rw [if_pos (by omega)]
  refine ⟨h1, ?_, ?_, ?_⟩
  · simp [smartIsSpeech, h1, Except.map]
  · simp [dualGetAudioLevelSq, h1]
  · simp only [dualIsSpeech, dualGetAudioLevelSq, h1, silenceThreshold]
    norm_num

/-- Witness for the C9 amended theorem at the one-byte chunk. -/
theorem c9_witness :
    getAudioLevelSq [0] = .error LevelError.structError ∧
    smartIsSpeech [0] = .error LevelError.structError ∧
    dualGetAudioLevelSq [0] = 0 :=
  ⟨(c9_malformed_chunk [0] rfl).1, (c9_malformed_chunk [0] rfl).2.1,
   (c9_malformed_chunk [0] rfl).2.2.1⟩

/-! ## Claim C10 -/

/-- C10: start_recording writes exactly three fields — record_to_file,
recording_frames (cleared) and is_recording (raised) — and leaves every
other capture-state field unchanged; consequently, when
recording_complete is still true from an earlier completed session,
every chunk arriving after the new start_recording leaves the state
(hence every buffer) untouched. -/
theorem c10_start_recording_frame (s : DualState) (f : String) :
    (startRecording s f).record_to_file = some f ∧
    (startRecording s f).recording_frames = [] ∧
    (startRecording s f).is_recording = true ∧
    (startRecording s f).output_dir = s.output_dir ∧
    (startRecording s f).speech_frames = s.speech_frames ∧
    (startRecording s f).target_duration = s.target_duration ∧
    (startRecording s f).speech_seconds = s.speech_seconds ∧
    (startRecording s f).currently_speaking = s.currently_speaking ∧
    (startRecording s f).recording_complete = s.recording_complete ∧
    (startRecording s f).silence_buffer = s.silence_buffer ∧
    (startRecording s f).silence_buffer_max = s.silence_buffer_max ∧
    (s.recording_complete = true →
      ∀ t : List (List ℕ), dualRun (startRecording s f) t = startRecording s f) := by
  refine ⟨rfl, rfl, rfl, rfl, rfl, rfl, rfl, rfl, rfl, rfl, rfl, ?_⟩
  intro hc t
  exact dualRun_complete t hc

/-- Witness for C10: restarting on a completed session ignores a
subsequent speech chunk and a silent chunk alike. -/
theorem c10_witness :
    dualRun (startRecording c6State "b.wav") [[232, 3], [0, 0]] =
      startRecording c6State "b.wav" :=
  (c10_start_recording_frame c6State "b.wav").2.2.2.2.2.2.2.2.2.2.2 rfl
    [[232, 3], [0, 0]]

end VoiceClone
